import Mathlib

/-!
Shallow embedding of the report-printing scripts of the MASE repository
(`src/xx/mas3/live-fix/script.py` and `script (1).py`).

Each Python `print(...)` call is modelled as one write of its argument string
to an output sink; a sink is the list of strings written so far.  Python
dictionaries are modelled as association lists in insertion order (Python 3.7+
guarantees insertion-order iteration), and the mixed-shape dictionary values
occurring in the scripts are modelled by the `PyVal` type.  A run of a piece
of the script is a `Trace`: the list of lines written, together with an
optional uncaught exception (`KeyError` / `TypeError`), which aborts the rest
of the run.
-/

namespace MASE

/-- Python values occurring in the literal dictionaries of `script.py`:
strings, integers, lists of strings, and nested dictionaries. -/
inductive PyVal : Type where
  | vstr (s : String)
  | vint (n : Int)
  | vlist (items : List String)
  | vdict (entries : List (String × PyVal))

mutual

/-- Python `repr()` of a `PyVal` (strings quoted, dictionaries braced). -/
def pyRepr : PyVal → String
  | .vstr s => "\x27" ++ s ++ "\x27"
  | .vint n => toString n
  | .vlist items =>
      "[" ++ String.intercalate ", " (items.map (fun s => "\x27" ++ s ++ "\x27")) ++ "]"
  | .vdict es => "\x7b" ++ String.intercalate ", " (pyReprEntries es) ++ "\x7d"

/-- `repr()` of the entries of a Python dictionary, in insertion order. -/
def pyReprEntries : List (String × PyVal) → List String
  | [] => []
  | (k, v) :: rest => ("\x27" ++ k ++ "\x27: " ++ pyRepr v) :: pyReprEntries rest

end

/-- Python `str()` of a value, as interpolated by the scripts' f-strings:
a string interpolates as itself, anything else as its `repr`. -/
def pyStr : PyVal → String
  | .vstr s => s
  | v => pyRepr v

/-- Python iteration `for x in v`, coerced to the item strings that get
printed: a list yields its items, a string yields its characters, a
dictionary yields its keys, and an integer raises `TypeError`. -/
def iterLines : PyVal → Except String (List String)
  | .vlist items => .ok items
  | .vstr s => .ok (s.data.map (fun c => String.mk [c]))
  | .vdict es => .ok (es.map (fun kv => kv.1))
  | .vint _ => .error "TypeError: int object is not iterable"

/-- A run fragment: the lines written, and an optional uncaught exception. -/
abbrev Trace := List String × Option String

/-- Sequencing of two run fragments: an exception in the first aborts the
second (its writes never happen). -/
def seqTrace (a b : Trace) : Trace :=
  match a.2 with
  | some e => (a.1, some e)
  | none => (a.1 ++ b.1, b.2)

/-- A `for` loop over sections, each iteration producing a run fragment;
an exception aborts the remaining iterations. -/
def renderSectionsT {α : Type} (f : α → Trace) : List α → Trace
  | [] => ([], none)
  | x :: xs => seqTrace (f x) (renderSectionsT f xs)

/-- `print(f"     ✓ {feature}")` — bullet for a feature line. -/
def featureBullet (f : String) : String := "     ✓ " ++ f

/-- `print(f"     ❌ {problem}")` — bullet for a per-file problem line. -/
def problemBullet (p : String) : String := "     ❌ " ++ p

/-- `print(f"   • {problem}")` — bullet in the identified-problems loop. -/
def idProblemBullet (p : String) : String := "   • " ++ p

/-- `print(f"     → {item}")` — bullet for a plan list item. -/
def planItemBullet (it : String) : String := "     → " ++ it

/-- The uncaught exception raised by `details['approach']` on a dictionary
without that key. -/
def keyErrApproach : String := "KeyError: \x27approach\x27"

/-- `print(f"   Approach: {details['approach']}")` (script.py line 184):
an unguarded dictionary access, raising `KeyError` when absent. -/
def approachPart (details : List (String × PyVal)) : Trace :=
  match List.lookup "approach" details with
  | none => ([], some keyErrApproach)
  | some v => (["   Approach: " ++ pyStr v], none)

/-- Lines 185-188 of script.py: the `key_features` block, guarded by
`if 'key_features' in details`. -/
def featuresPart (details : List (String × PyVal)) : Trace :=
  match List.lookup "key_features" details with
  | none => ([], none)
  | some fv =>
      match iterLines fv with
      | .error e => (["   Features:"], some e)
      | .ok fs => ("   Features:" :: fs.map featureBullet, none)

/-- Lines 189-192 of script.py: the `problems` block, guarded by
`if 'problems' in details`. -/
def fileProblemsPart (details : List (String × PyVal)) : Trace :=
  match List.lookup "problems" details with
  | none => ([], none)
  | some pv =>
      match iterLines pv with
      | .error e => (["   Problems:"], some e)
      | .ok ps => ("   Problems:" :: ps.map problemBullet, none)

/-- One iteration of the `current_files` loop (script.py lines 182-192). -/
def renderFileSection (filename : String) (details : List (String × PyVal)) : Trace :=
  seqTrace (["\n" ++ filename ++ ":"], none)
    (seqTrace (approachPart details)
      (seqTrace (featuresPart details) (fileProblemsPart details)))

/-- The output block of one `current_files` entry. -/
def fileBlock (f : String × List (String × PyVal)) : Trace :=
  renderFileSection f.1 f.2

/-- The whole `current_files` loop (script.py lines 182-192). -/
def renderCurrentFiles (files : List (String × List (String × PyVal))) : Trace :=
  renderSectionsT fileBlock files

/-- Python `str.upper()` for the ASCII category keys of the scripts. -/
def catUpper (s : String) : String := String.mk (s.data.map Char.toUpper)

/-- `phase.upper().replace('_', ' ')` (script.py line 202); `.upper()` leaves
`'_'` unchanged, so the two traversals fuse into one character map. -/
def phaseTitle (ph : String) : String :=
  String.mk (ph.data.map (fun c => if c = '_' then ' ' else Char.toUpper c))

/-- The output block of one `identified_problems` category
(script.py lines 195-198). -/
def problemBlock (c : String × List String) : List String :=
  ("\n" ++ catUpper c.1 ++ ":") :: c.2.map idProblemBullet

/-- The whole `identified_problems` loop (script.py lines 195-198);
it cannot raise. -/
def renderProblems (cats : List (String × List String)) : List String :=
  (cats.map problemBlock).flatten

/-- One iteration of the inner plan loop (script.py lines 203-211):
a dictionary containing `'features'` prints a header and ✓-bullets, a list
prints a header and →-bullets, anything else is skipped silently. -/
def renderComponent (component : String) (info : PyVal) : Trace :=
  match info with
  | .vdict es =>
      match List.lookup "features" es with
      | some fv =>
          match iterLines fv with
          | .error e => (["   " ++ component ++ ":"], some e)
          | .ok fs => (("   " ++ component ++ ":") :: fs.map featureBullet, none)
      | none => ([], none)
  | .vlist items => (("   " ++ component ++ ":") :: items.map planItemBullet, none)
  | _ => ([], none)

/-- The inner plan loop applied to a `(component, info)` pair. -/
def componentT (c : String × PyVal) : Trace :=
  renderComponent c.1 c.2

/-- One iteration of the outer plan loop (script.py lines 201-211). -/
def renderPhase (ph : String) (details : List (String × PyVal)) : Trace :=
  seqTrace (["\n" ++ phaseTitle ph ++ ":"], none) (renderSectionsT componentT details)

/-- The outer plan loop applied to a `(phase, details)` pair. -/
def phaseT (p : String × List (String × PyVal)) : Trace :=
  renderPhase p.1 p.2

/-- The whole `modernization_plan` loop (script.py lines 201-211). -/
def renderPlan (plan : List (String × List (String × PyVal))) : Trace :=
  renderSectionsT phaseT plan

/-- The `improvements` loop (script.py lines 238-239):
`print(f"   {metric}: {improvement}")`, one line per pair, in mapping order.
The `metrics` loop of `script (1).py` (lines 195-196) has the same shape. -/
def renderImprovements : List (String × String) → List String
  | [] => []
  | p :: rest => ("   " ++ p.1 ++ ": " ++ p.2) :: renderImprovements rest

/-- The `enumerate(xs, 1)` loops (script.py lines 251-252 and 264-265):
`print(f"   {i}. {item}")`. -/
def renderEnumerated : Nat → List String → List String
  | _, [] => []
  | i, x :: xs => ("   " ++ toString i ++ ". " ++ x) :: renderEnumerated (i + 1) xs

/-- The two opening prints of script.py (lines 179 and 181). -/
def headerLines : List String :=
  ["=== ANALIZA SYSTEMU LIVE PREVIEW ===\n", "📁 AKTUALNE PLIKI:"]

/-- The literal performance-metrics prints of script.py (lines 214-225). -/
def metricsBlock : List String :=
  ["\n📊 ANALIZA WYDAJNOŚCI:",
   "   Current approach:",
   "     • AJAX roundtrip: ~200-500ms delay",
   "     • CSS generation: ~50-100ms server time",
   "     • DOM injection: ~5-10ms",
   "     • Total delay: ~255-610ms per change",
   "\n   Target improvements:",
   "     • CSS Variables direct: ~1-5ms",
   "     • Batched AJAX fallback: ~100-200ms",
   "     • Smart caching: ~50% reduction",
   "     • Total target: ~50-100ms per change"]

/-- The literal architecture-recommendation prints of script.py
(lines 267-272). -/
def archBlock : List String :=
  ["\n🔧 ARCHITECTURE RECOMMENDATION:",
   "   Primary: CSS Variables voor instant feedback",
   "   Fallback: Batched AJAX voor complex changes",
   "   Recovery: Local state management with rollback",
   "   Monitoring: Real-time performance metrics",
   "   Testing: Automated preview regression tests"]

/-- The document data that script.py iterates over: the fields of
`live_preview_analysis`, `modernization_plan`, and the four later literal
collections.  The rendering code is a function of exactly this data. -/
structure ScriptDoc where
  current_files : List (String × List (String × PyVal))
  identified_problems : List (String × List String)
  modernization_plan : List (String × List (String × PyVal))
  improvements : List (String × String)
  critical_issues : List String
  action_items : List String

/-- Everything script.py prints after the plan loop (lines 214-272):
only literal lines and loops over flat data, so it cannot raise. -/
def tailLines (d : ScriptDoc) : List String :=
  metricsBlock ++ ("\n🎯 PRZEWIDYWANE REZULTATY:" :: renderImprovements d.improvements)
    ++ ("\n⚡ KRYTYCZNE ISSUES TO FIX:" :: renderEnumerated 1 d.critical_issues)
    ++ ("\n📋 IMMEDIATE ACTION ITEMS:" :: renderEnumerated 1 d.action_items)
    ++ archBlock

/-- The full run of script.py (lines 179-272) on a document: all lines
written, in order, plus the optional uncaught exception that aborted it. -/
def renderScript (d : ScriptDoc) : Trace :=
  seqTrace (headerLines, none)
    (seqTrace (renderCurrentFiles d.current_files)
      (seqTrace ("\n🚨 GŁÓWNE PROBLEMY:" :: renderProblems d.identified_problems, none)
        (seqTrace (["\n🚀 PLAN MODERNIZACJI:"], none)
          (seqTrace (renderPlan d.modernization_plan) (tailLines d, none)))))

/-- The program run against a sink that accepts exactly `cap` writes and then
fails.  A failing write raises; the exception is uncaught, so the program
stops writing at once and exits 1; if every write succeeds, the exit code is
0 unless rendering itself raised.  The result is the sink's final content and
the process exit code. -/
def programRun (d : ScriptDoc) (cap : Nat) : List String × Nat :=
  let t := renderScript d
  if t.1.length ≤ cap then
    (t.1, match t.2 with | none => 0 | some _ => 1)
  else
    (t.1.take cap, 1)

/-! ### The renderer as a stateful procedure over a mutable sink

The definitions above compute the lines a fragment writes.  The script itself
writes one line at a time to the (stateful) standard-output sink.  The `…On`
definitions below re-express each loop in that style: they take the sink
contents so far and return the grown sink.  The determinism theorem proves
the two agree, i.e. the writes are a pure function of the document and do not
depend on anything already in the sink. -/

/-- A single `print`: append one line to the sink. -/
def writeL (s : List String) (l : String) : List String := s ++ [l]

/-- Write a block of literal lines one `print` at a time. -/
def emitAllOn : List String → List String → List String
  | [], s => s
  | l :: ls, s => emitAllOn ls (writeL s l)

/-- A bullet loop: write `mk x` for each item, one `print` at a time. -/
def bulletsOn (mk : String → String) : List String → List String → List String
  | [], s => s
  | x :: xs, s => bulletsOn mk xs (writeL s (mk x))

/-- Sequencing of two stateful fragments; an exception in the first aborts
the second. -/
def seqOn (f g : List String → Trace) (s : List String) : Trace :=
  match f s with
  | (s1, some e) => (s1, some e)
  | (s1, none) => g s1

/-- A stateful `for` loop over sections; an exception aborts the rest. -/
def sectionsOn {α : Type} (f : α → List String → Trace) : List α → List String → Trace
  | [], s => (s, none)
  | x :: xs, s =>
      match f x s with
      | (s1, some e) => (s1, some e)
      | (s1, none) => sectionsOn f xs s1

/-- Stateful version of `approachPart`. -/
def approachPartOn (details : List (String × PyVal)) (s : List String) : Trace :=
  match List.lookup "approach" details with
  | none => (s, some keyErrApproach)
  | some v => (writeL s ("   Approach: " ++ pyStr v), none)

/-- Stateful version of `featuresPart`. -/
def featuresPartOn (details : List (String × PyVal)) (s : List String) : Trace :=
  match List.lookup "key_features" details with
  | none => (s, none)
  | some fv =>
      match iterLines fv with
      | .error e => (writeL s "   Features:", some e)
      | .ok fs => (bulletsOn featureBullet fs (writeL s "   Features:"), none)

/-- Stateful version of `fileProblemsPart`. -/
def fileProblemsPartOn (details : List (String × PyVal)) (s : List String) : Trace :=
  match List.lookup "problems" details with
  | none => (s, none)
  | some pv =>
      match iterLines pv with
      | .error e => (writeL s "   Problems:", some e)
      | .ok ps => (bulletsOn problemBullet ps (writeL s "   Problems:"), none)

/-- Stateful version of `renderFileSection`. -/
def fileSectionOn (filename : String) (details : List (String × PyVal)) :
    List String → Trace :=
  seqOn (fun s => (writeL s ("\n" ++ filename ++ ":"), none))
    (seqOn (approachPartOn details)
      (seqOn (featuresPartOn details) (fileProblemsPartOn details)))

/-- Stateful version of `renderCurrentFiles`. -/
def currentFilesOn (files : List (String × List (String × PyVal))) :
    List String → Trace :=
  sectionsOn (fun f => fileSectionOn f.1 f.2) files

/-- Stateful version of `renderProblems`. -/
def problemsOn : List (String × List String) → List String → List String
  | [], s => s
  | c :: rest, s =>
      problemsOn rest (bulletsOn idProblemBullet c.2 (writeL s ("\n" ++ catUpper c.1 ++ ":")))

/-- Stateful version of `renderComponent`. -/
def componentOn (c : String) (info : PyVal) (s : List String) : Trace :=
  match info with
  | .vdict es =>
      match List.lookup "features" es with
      | some fv =>
          match iterLines fv with
          | .error e => (writeL s ("   " ++ c ++ ":"), some e)
          | .ok fs => (bulletsOn featureBullet fs (writeL s ("   " ++ c ++ ":")), none)
      | none => (s, none)
  | .vlist items => (bulletsOn planItemBullet items (writeL s ("   " ++ c ++ ":")), none)
  | _ => (s, none)

/-- Stateful version of `renderPhase`. -/
def phaseOn (ph : String) (details : List (String × PyVal)) : List String → Trace :=
  seqOn (fun s => (writeL s ("\n" ++ phaseTitle ph ++ ":"), none))
    (sectionsOn (fun c => componentOn c.1 c.2) details)

/-- Stateful version of `renderPlan`. -/
def planOn (plan : List (String × List (String × PyVal))) : List String → Trace :=
  sectionsOn (fun p => phaseOn p.1 p.2) plan

/-- Stateful version of `renderImprovements`. -/
def improvementsOn : List (String × String) → List String → List String
  | [], s => s
  | p :: rest, s => improvementsOn rest (writeL s ("   " ++ p.1 ++ ": " ++ p.2))

/-- Stateful version of `renderEnumerated`. -/
def enumeratedOn : Nat → List String → List String → List String
  | _, [], s => s
  | i, x :: xs, s => enumeratedOn (i + 1) xs (writeL s ("   " ++ toString i ++ ". " ++ x))

/-- Stateful version of `tailLines`. -/
def tailOn (d : ScriptDoc) (s : List String) : List String :=
  let s1 := emitAllOn metricsBlock s
  let s2 := writeL s1 "\n🎯 PRZEWIDYWANE REZULTATY:"
  let s3 := improvementsOn d.improvements s2
  let s4 := writeL s3 "\n⚡ KRYTYCZNE ISSUES TO FIX:"
  let s5 := enumeratedOn 1 d.critical_issues s4
  let s6 := writeL s5 "\n📋 IMMEDIATE ACTION ITEMS:"
  let s7 := enumeratedOn 1 d.action_items s6
  emitAllOn archBlock s7

/-- The full run of script.py as a stateful procedure on a sink. -/
def renderScriptOn (d : ScriptDoc) : List String → Trace :=
  seqOn (fun s => (emitAllOn headerLines s, none))
    (seqOn (currentFilesOn d.current_files)
      (seqOn (fun s =>
          (problemsOn d.identified_problems (writeL s "\n🚨 GŁÓWNE PROBLEMY:"), none))
        (seqOn (fun s => (writeL s "\n🚀 PLAN MODERNIZACJI:", none))
          (seqOn (planOn d.modernization_plan) (fun s => (tailOn d s, none))))))

/-! ### Auxiliary notions used by the claims -/

/-- Reordering of a list by a list of indices (a permutation when `σ`
enumerates the positions exactly once). -/
def reorder {α : Type} (σ : List Nat) (l : List α) : List α :=
  σ.filterMap (fun i => l[i]?)

/-- The indentation the plan loop gives to each nesting level: phases at
depth 0, components at depth 1, features/items at depth 2. -/
def planIndent : Nat → String
  | 0 => ""
  | 1 => "   "
  | _ => "     "

/-- The marker glyph of a bullet line: the first character after the five
leading indentation spaces. -/
def markerOf (l : String) : List Char := (l.data.drop 5).take 1

/-- Component values the plan loop skips: everything that is neither a
dictionary containing `'features'` nor a list. -/
def skipsComponent : PyVal → Bool
  | .vdict es => (List.lookup "features" es).isNone
  | .vlist _ => false
  | _ => true

/-! ### The built-in document of script.py (lines 3-176 and 229-265) -/

/-- `live_preview_analysis["current_files"]` (script.py lines 4-73). -/
def builtinCurrentFiles : List (String × List (String × PyVal)) :=
  [("simple-live-preview.js",
    [("size", .vstr "Główny plik live preview"),
     ("approach", .vstr "AJAX-based CSS injection"),
     ("key_features", .vlist
       ["Real-time CSS generation via AJAX",
        "Direct CSS injection via <style> tag",
        "WordPress Color Picker integration",
        "Debounced updates (300ms)",
        "Field tracking przez regex pattern matching"]),
     ("problems", .vlist
       ["AJAX dependency - slow",
        "Server roundtrip dla każdej zmiany",
        "Brak error handling dla failed requests",
        "Regex pattern matching prone to errors",
        "No rollback mechanism",
        "Hard-coded 300ms debounce",
        "Brak optimizacji dla bulk changes"])]),
   ("simple-live-preview-minimal.js",
    [("size", .vstr "Alternatywna implementacja"),
     ("approach", .vstr "CSS Variables direct injection"),
     ("key_features", .vlist
       ["Direct CSS variable setting",
        "No server communication",
        "Instant updates (100ms debounce)",
        "Minimal dependency approach"]),
     ("problems", .vlist
       ["Limited to CSS variables tylko",
        "No complex CSS generation",
        "Hardcoded variable naming convention",
        "No fallback dla older browsers",
        "Brak persistence bez save"])]),
   ("mas-settings-form-handler.js",
    [("size", .vstr "Main form handler"),
     ("live_preview_related", .vlist
       ["Ma REST/AJAX fallback system",
        "Event dispatching system",
        "Form data collection",
        "Error handling infrastructure"]),
     ("integration_issues", .vlist
       ["No direct live preview integration",
        "Separate systems don\x27t communicate",
        "Potential conflicts with live preview AJAX"])]),
   ("admin-settings-page.js",
    [("size", .vstr "UI enhancements"),
     ("live_preview_features", .vlist
       ["Live preview toggle button",
        "Theme presets application",
        "Conditional field showing/hiding",
        "Slider value updates"]),
     ("problems", .vlist
       ["Separate live preview implementation",
        "No coordination with main live preview",
        "Outdated approach using deprecated events"])])]

/-- `live_preview_analysis["identified_problems"]` (script.py lines 75-115). -/
def builtinIdentifiedProblems : List (String × List String) :=
  [("architecture",
    ["Multiple separate live preview systems",
     "No unified approach",
     "AJAX-heavy approach is slow",
     "No proper error recovery",
     "Disconnected systems don\x27t communicate"]),
   ("performance",
    ["Server roundtrip dla każdej zmiany",
     "No batching of changes",
     "CSS regeneration na serwerze każda zmiana",
     "No caching mechanisms",
     "Debounce timers not coordinated"]),
   ("reliability",
    ["No error handling dla failed requests",
     "No rollback mechanism",
     "Broken state gdy server nie odpowiada",
     "No visual feedback dla errors",
     "Race conditions możliwe"]),
   ("user_experience",
    ["Delay między zmianą a preview (300ms+)",
     "No loading indicators",
     "Inconsistent behavior across fields",
     "No preview reset option",
     "Breaking gdy JavaScript errors"]),
   ("maintenance",
    ["Multiple implementations to maintain",
     "Hardcoded values and selectors",
     "Regex-based field detection fragile",
     "No TypeScript definitions",
     "Poor separation of concerns"])]

/-- `modernization_plan` (script.py lines 118-176). -/
def builtinModernizationPlan : List (String × List (String × PyVal)) :=
  [("phase_1_immediate",
    [("unified_live_preview_engine", .vdict
       [("file", .vstr "assets/js/unified-live-preview.js"),
        ("features", .vlist
          ["Single live preview system",
           "Hybrid approach: CSS Variables + AJAX fallback",
           "Proper error handling and recovery",
           "Batch updates and debouncing",
           "Performance monitoring",
           "Visual feedback system"])]),
     ("improvements", .vlist
       ["Replace multiple systems with single unified engine",
        "Add proper error handling and rollback",
        "Implement performance optimizations",
        "Add visual feedback indicators",
        "Create proper field detection system"])]),
   ("phase_2_optimization",
    [("advanced_features", .vlist
       ["CSS Variables caching system",
        "Predictive CSS generation",
        "Background CSS compilation",
        "Progressive preview loading",
        "Smart debouncing based on field type"]),
     ("performance_features", .vlist
       ["Request batching and coalescing",
        "CSS diff-based updates",
        "Service Worker for offline preview",
        "Memory-efficient CSS injection",
        "Lazy loading for complex previews"])]),
   ("phase_3_modernization",
    [("modern_architecture", .vlist
       ["TypeScript conversion",
        "ES6 modules architecture",
        "Web Components dla preview elements",
        "State management system",
        "Event-driven architecture"]),
     ("advanced_ui", .vlist
       ["Real-time preview thumbnails",
        "Undo/redo system",
        "Preview comparison mode",
        "Mobile preview mode",
        "Accessibility preview mode"])])]

/-- `improvements` (script.py lines 229-236). -/
def builtinImprovements : List (String × String) :=
  [("Performance", "80% faster live preview"),
   ("Reliability", "99.9% uptime with error recovery"),
   ("User Experience", "Instant feedback, smooth interactions"),
   ("Maintainability", "Single system to maintain"),
   ("Scalability", "Handle 100+ concurrent changes"),
   ("Accessibility", "Full keyboard and screen reader support")]

/-- `critical_issues` (script.py lines 242-249). -/
def builtinCriticalIssues : List String :=
  ["Multiple competing live preview systems",
   "AJAX dependency creating 300ms+ delays",
   "No error handling or recovery mechanism",
   "Race conditions between different systems",
   "Performance degradation with multiple changes",
   "Broken state when server unavailable"]

/-- `action_items` (script.py lines 255-262). -/
def builtinActionItems : List String :=
  ["Create unified live preview engine",
   "Implement CSS Variables approach with AJAX fallback",
   "Add comprehensive error handling",
   "Create performance monitoring dashboard",
   "Add visual feedback for preview states",
   "Implement proper batching and debouncing"]

/-- The built-in document of script.py. -/
def builtinScriptDoc : ScriptDoc :=
  { current_files := builtinCurrentFiles
    identified_problems := builtinIdentifiedProblems
    modernization_plan := builtinModernizationPlan
    improvements := builtinImprovements
    critical_issues := builtinCriticalIssues
    action_items := builtinActionItems }

/-- A document with no data, used to exercise the write-failure model on a
run whose rendering raises nothing. -/
def emptyDoc : ScriptDoc :=
  { current_files := []
    identified_problems := []
    modernization_plan := []
    improvements := []
    critical_issues := []
    action_items := [] }

/-! ### Helper lemmas -/

lemma emitAllOn_eq (ls : List String) : ∀ s, emitAllOn ls s = s ++ ls := by
  induction ls with
  | nil => intro s; simp [emitAllOn]
  | cons l ls ih => intro s; simp [emitAllOn, writeL, ih]

lemma bulletsOn_eq (mk : String → String) (xs : List String) :
    ∀ s, bulletsOn mk xs s = s ++ xs.map mk := by
  induction xs with
  | nil => intro s; simp [bulletsOn]
  | cons x xs ih => intro s; simp [bulletsOn, writeL, ih]

lemma seqOn_eq {f g : List String → Trace} (fp gp : Trace)
    (hf : ∀ s, f s = (s ++ fp.1, fp.2)) (hg : ∀ s, g s = (s ++ gp.1, gp.2)) :
    ∀ s, seqOn f g s = (s ++ (seqTrace fp gp).1, (seqTrace fp gp).2) := by
  intro s
  obtain ⟨fl, fe⟩ := fp
  obtain ⟨gl, ge⟩ := gp
  cases fe with
  | some e => simp [seqOn, hf, seqTrace]
  | none => simp [seqOn, hf, hg, seqTrace]

lemma sectionsOn_eq {α : Type} {f : α → List String → Trace} (ft : α → Trace)
    (h : ∀ x s, f x s = (s ++ (ft x).1, (ft x).2)) :
    ∀ (l : List α) (s : List String),
      sectionsOn f l s = (s ++ (renderSectionsT ft l).1, (renderSectionsT ft l).2) := by
  intro l
  induction l with
  | nil => intro s; simp [sectionsOn, renderSectionsT]
  | cons x xs ih =>
      intro s
      rcases hft : ft x with ⟨fl, fe⟩
      have hx : f x s = (s ++ fl, fe) := by rw [h, hft]
      cases fe with
      | some e => simp [sectionsOn, hx, renderSectionsT, seqTrace, hft]
      | none => simp [sectionsOn, hx, renderSectionsT, seqTrace, hft, ih]

lemma approachPartOn_eq (details : List (String × PyVal)) :
    ∀ s, approachPartOn details s = (s ++ (approachPart details).1, (approachPart details).2) := by
  intro s
  unfold approachPartOn approachPart
  cases List.lookup "approach" details <;> simp [writeL]

lemma featuresPartOn_eq (details : List (String × PyVal)) :
    ∀ s, featuresPartOn details s = (s ++ (featuresPart details).1, (featuresPart details).2) := by
  intro s
  unfold featuresPartOn featuresPart
  cases List.lookup "key_features" details with
  | none => simp
  | some fv => cases h : iterLines fv <;> simp [h, writeL, bulletsOn_eq]

lemma fileProblemsPartOn_eq (details : List (String × PyVal)) :
    ∀ s, fileProblemsPartOn details s
      = (s ++ (fileProblemsPart details).1, (fileProblemsPart details).2) := by
  intro s
  unfold fileProblemsPartOn fileProblemsPart
  cases List.lookup "problems" details with
  | none => simp
  | some pv => cases h : iterLines pv <;> simp [h, writeL, bulletsOn_eq]

lemma fileSectionOn_eq (fn : String) (details : List (String × PyVal)) :
    ∀ s, fileSectionOn fn details s
      = (s ++ (renderFileSection fn details).1, (renderFileSection fn details).2) := by
  unfold fileSectionOn renderFileSection
  exact seqOn_eq (["\n" ++ fn ++ ":"], none) _ (fun s => by simp [writeL])
    (seqOn_eq _ _ (approachPartOn_eq details)
      (seqOn_eq _ _ (featuresPartOn_eq details) (fileProblemsPartOn_eq details)))

lemma currentFilesOn_eq (files : List (String × List (String × PyVal))) :
    ∀ s, currentFilesOn files s
      = (s ++ (renderCurrentFiles files).1, (renderCurrentFiles files).2) := by
  unfold currentFilesOn renderCurrentFiles
  exact sectionsOn_eq fileBlock (fun x s => fileSectionOn_eq x.1 x.2 s) files

lemma problemsOn_eq (cats : List (String × List String)) :
    ∀ s, problemsOn cats s = s ++ renderProblems cats := by
  induction cats with
  | nil => intro s; simp [problemsOn, renderProblems]
  | cons c rest ih =>
      intro s
      simp [problemsOn, renderProblems, problemBlock, bulletsOn_eq, writeL, ih]

lemma componentOn_eq (c : String) (info : PyVal) :
    ∀ s, componentOn c info s = (s ++ (renderComponent c info).1, (renderComponent c info).2) := by
  intro s
  unfold componentOn renderComponent
  cases info with
  | vdict es =>
      cases hl : List.lookup "features" es with
      | none => simp [hl]
      | some fv => cases h : iterLines fv <;> simp [hl, h, writeL, bulletsOn_eq]
  | vlist items => simp [writeL, bulletsOn_eq]
  | vstr s0 => simp
  | vint n => simp

lemma phaseOn_eq (ph : String) (details : List (String × PyVal)) :
    ∀ s, phaseOn ph details s = (s ++ (renderPhase ph details).1, (renderPhase ph details).2) := by
  unfold phaseOn renderPhase
  exact seqOn_eq (["\n" ++ phaseTitle ph ++ ":"], none) _ (fun s => by simp [writeL])
    (sectionsOn_eq componentT (fun x s => componentOn_eq x.1 x.2 s) details)

lemma planOn_eq (plan : List (String × List (String × PyVal))) :
    ∀ s, planOn plan s = (s ++ (renderPlan plan).1, (renderPlan plan).2) := by
  unfold planOn renderPlan
  exact sectionsOn_eq phaseT (fun x s => phaseOn_eq x.1 x.2 s) plan

lemma improvementsOn_eq (ps : List (String × String)) :
    ∀ s, improvementsOn ps s = s ++ renderImprovements ps := by
  induction ps with
  | nil => intro s; simp [improvementsOn, renderImprovements]
  | cons p rest ih => intro s; simp [improvementsOn, renderImprovements, writeL, ih]

lemma enumeratedOn_eq (xs : List String) :
    ∀ (i : Nat) (s : List String), enumeratedOn i xs s = s ++ renderEnumerated i xs := by
  induction xs with
  | nil => intro i s; simp [enumeratedOn, renderEnumerated]
  | cons x xs ih => intro i s; simp [enumeratedOn, renderEnumerated, writeL, ih]

lemma tailOn_eq (d : ScriptDoc) : ∀ s, tailOn d s = s ++ tailLines d := by
  intro s
  simp [tailOn, tailLines, emitAllOn_eq, improvementsOn_eq, enumeratedOn_eq, writeL]

/-- The per-pair line of the improvements loop, as a map. -/
lemma renderImprovements_map (ps : List (String × String)) :
    renderImprovements ps = ps.map (fun p => "   " ++ p.1 ++ ": " ++ p.2) := by
  induction ps with
  | nil => rfl
  | cons p rest ih => simp [renderImprovements, ih]

/-- Mapping a block renderer commutes with index reordering. -/
lemma reorder_map {α β : Type} (g : α → β) (σ : List Nat) (l : List α) :
    List.map g (reorder σ l) = reorder σ (List.map g l) := by
  unfold reorder
  rw [List.map_filterMap]
  simp [List.getElem?_map]

/-- A section loop none of whose iterations raises writes exactly the
per-section blocks, concatenated in document order, and raises nothing. -/
lemma renderSectionsT_no_error {α : Type} (ft : α → Trace) :
    ∀ (l : List α), (∀ x ∈ l, (ft x).2 = none) →
      renderSectionsT ft l = ((l.map (fun x => (ft x).1)).flatten, none) := by
  intro l
  induction l with
  | nil => intro _; rfl
  | cons x xs ih =>
      intro h
      have hx : (ft x).2 = none := h x (List.mem_cons_self x xs)
      have hxs := ih (fun y hy => h y (List.mem_cons_of_mem x hy))
      simp [renderSectionsT, seqTrace, hx, hxs]

/-- A component value that is neither a dictionary containing `'features'`
nor a list produces no writes and no exception. -/
lemma renderComponent_skipped (c : String) (v : PyVal) (hv : skipsComponent v = true) :
    renderComponent c v = ([], none) := by
  cases v with
  | vdict es =>
      have hnone : List.lookup "features" es = none := by
        simpa [skipsComponent, Option.isNone_iff_eq_none] using hv
      simp [renderComponent, hnone]
  | vlist items => simp [skipsComponent] at hv
  | vstr s0 => rfl
  | vint n => rfl

/-- Dropping a skipped component from the component loop leaves the loop's
trace unchanged. -/
lemma sectionsT_skip (c : String) (v : PyVal) (hv : skipsComponent v = true) :
    ∀ (xs ys : List (String × PyVal)),
      renderSectionsT componentT (xs ++ (c, v) :: ys) = renderSectionsT componentT (xs ++ ys) := by
  intro xs ys
  induction xs with
  | nil => simp [renderSectionsT, componentT, renderComponent_skipped c v hv, seqTrace]
  | cons x xs ih => simp [renderSectionsT, ih]

/-! ### Claim theorems -/

/-- C1 (counterexample).  The claim predicts that a `Body` which is none of
the recognized variants — here the raw number `42` — makes `render` fail with
`InvalidDocument`, writing nothing for that section and no subsequent
sections.  On the code (the `modernization_plan` loop, script.py lines
200-211) the run raises no exception at all and the subsequent section
`improvements` *is* written. -/
theorem invalid_component_renders_ok_and_continues :
    renderPlan [("phase_1_immediate",
        [("bad_component", PyVal.vint 42),
         ("improvements", PyVal.vlist ["Replace multiple systems with single unified engine"])])]
      = (["\nPHASE 1 IMMEDIATE:", "   improvements:",
          "     → Replace multiple systems with single unified engine"], none)
    ∧ (renderPlan [("phase_1_immediate",
        [("bad_component", PyVal.vint 42),
         ("improvements", PyVal.vlist ["Replace multiple systems with single unified engine"])])]).2
      = none
    ∧ "   improvements:" ∈ (renderPlan [("phase_1_immediate",
        [("bad_component", PyVal.vint 42),
         ("improvements", PyVal.vlist ["Replace multiple systems with single unified engine"])])]).1 :=
  ⟨rfl, rfl, by decide⟩

/-- C1 (amended).  If a plan component's value is none of the recognized
variants — e.g. a raw number — the renderer does not fail: it writes nothing
for that component and renders all subsequent components and phases exactly
as if the component were absent. -/
theorem raw_number_component_skipped (n : Int) (c ph : String)
    (xs ys : List (String × PyVal)) (rest : List (String × List (String × PyVal))) :
    renderComponent c (PyVal.vint n) = ([], none)
    ∧ renderPlan ((ph, xs ++ (c, PyVal.vint n) :: ys) :: rest)
        = renderPlan ((ph, xs ++ ys) :: rest) := by
  refine ⟨rfl, ?_⟩
  simp [renderPlan, renderSectionsT, phaseT, renderPhase, sectionsT_skip c (PyVal.vint n) rfl]

/-- C2.  The writes performed by script.py are a pure function of the
document: running the renderer as a stateful procedure on any sink appends
exactly `(renderScript d).1` — a function of `d` alone — and ends in the
error state `(renderScript d).2`.  In particular two invocations on fresh
sinks write byte-identical output, with no dependence on prior sink content,
mutation, or any other state. -/
theorem render_pure_function_of_document (d : ScriptDoc) (s : List String) :
    renderScriptOn d s = (s ++ (renderScript d).1, (renderScript d).2)
    ∧ renderScriptOn d [] = ((renderScript d).1, (renderScript d).2) := by
  have main : ∀ s, renderScriptOn d s = (s ++ (renderScript d).1, (renderScript d).2) := by
    unfold renderScriptOn renderScript
    exact seqOn_eq (headerLines, none) _ (fun s => by simp [emitAllOn_eq])
      (seqOn_eq _ _ (currentFilesOn_eq d.current_files)
        (seqOn_eq ("\n🚨 GŁÓWNE PROBLEMY:" :: renderProblems d.identified_problems, none) _
          (fun s => by simp [problemsOn_eq, writeL])
          (seqOn_eq (["\n🚀 PLAN MODERNIZACJI:"], none) _ (fun s => by simp [writeL])
            (seqOn_eq _ (tailLines d, none) (planOn_eq d.modernization_plan)
              (fun s => by simp [tailOn_eq])))))
  exact ⟨main s, by simpa using main []⟩

/-- C3 (counterexample).  The claim says the rendered line for a pair
`(k, v)` is exactly `"k: v"`; the code (the `improvements` loop, script.py
lines 238-239) writes `"   k: v"`, with a fixed three-space indent. -/
theorem keyvalue_line_has_indent :
    renderImprovements [("Performance", "80% faster live preview")]
      = ["   Performance: 80% faster live preview"]
    ∧ "   Performance: 80% faster live preview" ≠ "Performance: 80% faster live preview" :=
  ⟨rfl, by decide⟩

/-- C3 (amended).  For every key/value list, the line rendered for the i-th
pair `(k, v)` is exactly `"   k: v"` (the fixed three-space indent followed
by `k`, `": "`, `v`), at position i — mapping order, no reordering and no
deduplication (one output line per input pair). -/
theorem keyvalue_lines_in_order (ps : List (String × String)) :
    (renderImprovements ps).length = ps.length
    ∧ ∀ (i : Nat) (k v : String), ps[i]? = some (k, v) →
        (renderImprovements ps)[i]? = some ("   " ++ k ++ ": " ++ v) := by
  constructor
  · rw [renderImprovements_map]; exact List.length_map ..
  · intro i k v h
    rw [renderImprovements_map, List.getElem?_map, h]
    rfl

/-- Witness for C3's amended theorem at a concrete pair. -/
theorem keyvalue_lines_in_order_witness :
    ([("Performance", "80% faster live preview")] : List (String × String))[0]?
      = some ("Performance", "80% faster live preview")
    ∧ (renderImprovements [("Performance", "80% faster live preview")])[0]?
      = some "   Performance: 80% faster live preview" :=
  ⟨rfl, (keyvalue_lines_in_order [("Performance", "80% faster live preview")]).2 0
    "Performance" "80% faster live preview" rfl⟩

/-- C4 (counterexample).  Two bullet lines written in one run of the
`current_files` loop carry different markers: features use `✓`, problems use
`❌`, so the marker is not consistent across all bullet lines in one run. -/
theorem bullet_markers_differ_in_one_run :
    renderFileSection "f"
        [("approach", PyVal.vstr "A"),
         ("key_features", PyVal.vlist ["x"]),
         ("problems", PyVal.vlist ["y"])]
      = (["\nf:", "   Approach: A", "   Features:", "     ✓ x", "   Problems:", "     ❌ y"],
         none)
    ∧ markerOf "     ✓ x" ≠ markerOf "     ❌ y" :=
  ⟨rfl, by decide⟩

/-- C4 (amended).  Every bullet-list entry is written as
`"<marker> <line>"` on its own line, in list order; the marker is fixed
within each list but differs across list kinds in one run (`✓` for
features, `❌` for problems; the identified-problems loop uses `•` and the
plan item loop `→`). -/
theorem bullet_lists_fixed_marker_per_list (fn ap : String) (fs ps : List String) :
    renderFileSection fn
        [("approach", PyVal.vstr ap),
         ("key_features", PyVal.vlist fs),
         ("problems", PyVal.vlist ps)]
      = (("\n" ++ fn ++ ":") :: ("   Approach: " ++ ap) ::
          ("   Features:" ::
            (List.map featureBullet fs ++ ("   Problems:" :: List.map problemBullet ps))),
         none)
    ∧ (∀ f, featureBullet f = "     " ++ "✓ " ++ f)
    ∧ (∀ p, problemBullet p = "     " ++ "❌ " ++ p)
    ∧ (∀ p, idProblemBullet p = "   " ++ "• " ++ p)
    ∧ (∀ it, planItemBullet it = "     " ++ "→ " ++ it)
    ∧ (∀ f, markerOf (featureBullet f) = ['✓'])
    ∧ (∀ p, markerOf (problemBullet p) = ['❌']) :=
  ⟨rfl, fun _ => rfl, fun _ => rfl, fun _ => rfl, fun _ => rfl, fun _ => rfl, fun _ => rfl⟩

/-- C5.  The plan loop indents by nesting depth: phase headings carry the
empty depth-0 indent, component headings the depth-1 indent, and
feature/item lines the depth-2 indent; each level extends the previous by a
non-empty increment, so a line two levels deep carries exactly two
increments of indentation relative to a top-level heading. -/
theorem plan_indentation_increases_per_level (ph c : String)
    (details : List (String × PyVal)) (items fs : List String) :
    (renderPhase ph details).1.head? = some ("\n" ++ phaseTitle ph ++ ":")
    ∧ planIndent 0 = ""
    ∧ renderComponent c (PyVal.vlist items)
        = ((planIndent 1 ++ c ++ ":") :: items.map (fun it => planIndent 2 ++ "→ " ++ it),
           none)
    ∧ renderComponent c (PyVal.vdict [("features", PyVal.vlist fs)])
        = ((planIndent 1 ++ c ++ ":") :: fs.map (fun f => planIndent 2 ++ "✓ " ++ f), none)
    ∧ planIndent 1 = planIndent 0 ++ "   "
    ∧ planIndent 2 = planIndent 1 ++ "  "
    ∧ (planIndent 0).length < (planIndent 1).length
    ∧ (planIndent 1).length < (planIndent 2).length :=
  ⟨rfl, rfl, rfl, rfl, rfl, rfl, by decide, by decide⟩

/-- C6.  Rendering is order-preserving, for both section loops named by the
claim.  For `identified_problems`: the output is the concatenation of the
per-category blocks in document order, and reordering the input categories
reorders those blocks identically.  For `current_files`: whenever no section
raises (an exception truncates the output, so this is the case in which all
blocks are emitted), `renderCurrentFiles` writes exactly the per-file blocks
concatenated in document order, and reordering the input files reorders
those blocks identically. -/
theorem rendering_order_preserving (cats : List (String × List String)) (σ : List Nat) :
    List.map problemBlock (reorder σ cats) = reorder σ (List.map problemBlock cats)
    ∧ renderProblems cats = (List.map problemBlock cats).flatten
    ∧ (∀ (files : List (String × List (String × PyVal))),
        List.map fileBlock (reorder σ files) = reorder σ (List.map fileBlock files))
    ∧ (∀ (files : List (String × List (String × PyVal))),
        (∀ f ∈ files, (fileBlock f).2 = none) →
          renderCurrentFiles files
            = ((files.map (fun f => (fileBlock f).1)).flatten, none))
    ∧ (∀ (files : List (String × List (String × PyVal))),
        List.map (fun f => (fileBlock f).1) (reorder σ files)
          = reorder σ (List.map (fun f => (fileBlock f).1) files)) :=
  ⟨reorder_map problemBlock σ cats, rfl,
   fun files => reorder_map fileBlock σ files,
   fun files h => renderSectionsT_no_error fileBlock files h,
   fun files => reorder_map (fun f => (fileBlock f).1) σ files⟩

/-- Witness for C6 at a concrete raise-free file list: the renderer emits
the two file blocks in document order. -/
theorem rendering_order_preserving_witness :
    (∀ f ∈ ([("a.js", [("approach", PyVal.vstr "A")]),
             ("b.js", [("approach", PyVal.vstr "B")])] :
        List (String × List (String × PyVal))), (fileBlock f).2 = none)
    ∧ renderCurrentFiles
        [("a.js", [("approach", PyVal.vstr "A")]),
         ("b.js", [("approach", PyVal.vstr "B")])]
      = ((([("a.js", [("approach", PyVal.vstr "A")]),
            ("b.js", [("approach", PyVal.vstr "B")])] :
          List (String × List (String × PyVal))).map (fun f => (fileBlock f).1)).flatten,
         none) :=
  ⟨by decide,
   (rendering_order_preserving [] []).2.2.2.1
     [("a.js", [("approach", PyVal.vstr "A")]), ("b.js", [("approach", PyVal.vstr "B")])]
     (by decide)⟩

/-- C7.  A section whose bullet list is empty renders as its title line (and
header lines) with zero bullet lines: the bullet loop maps over the empty
list, contributing nothing. -/
theorem empty_bullet_list_renders_title_only (fn ap : String) :
    renderFileSection fn [("approach", PyVal.vstr ap), ("key_features", PyVal.vlist [])]
      = (["\n" ++ fn ++ ":", "   Approach: " ++ ap, "   Features:"], none)
    ∧ ("\n" ++ fn ++ ":")
        ∈ (renderFileSection fn
            [("approach", PyVal.vstr ap), ("key_features", PyVal.vlist [])]).1
    ∧ List.map featureBullet ([] : List String) = [] :=
  ⟨rfl, List.mem_cons_self _ _, rfl⟩

/-- C8 (counterexample).  On the built-in document a sink with ample
capacity accepts every write, yet the process exits non-zero: rendering
itself raises (`KeyError`), so "exit 0 whenever every write succeeds" fails
as stated. -/
theorem builtin_run_nonzero_despite_write_success :
    (renderScript builtinScriptDoc).1.length ≤ 1000
    ∧ (programRun builtinScriptDoc 1000).2 = 1 :=
  ⟨by decide, rfl⟩

/-- C8 (amended).  Writes are the renderer's only side effect and a write
failure propagates: if the sink fails at write `cap` (0-based), the sink
ends with exactly the first `cap` lines — nothing is written after the
failed write — and the process exits 1; if every write succeeds the process
exits 0 when rendering raised nothing, and 1 when it raised. -/
theorem write_failure_aborts_and_exit_codes (d : ScriptDoc) (cap : Nat) :
    (cap < (renderScript d).1.length →
        programRun d cap = ((renderScript d).1.take cap, 1))
    ∧ ((renderScript d).1.length ≤ cap → (renderScript d).2 = none →
        programRun d cap = ((renderScript d).1, 0))
    ∧ ((renderScript d).1.length ≤ cap → ∀ e, (renderScript d).2 = some e →
        programRun d cap = ((renderScript d).1, 1)) := by
  refine ⟨?_, ?_, ?_⟩
  · intro h
    simp [programRun, Nat.not_le_of_lt h]
  · intro h he
    simp [programRun, h, he]
  · intro h e he
    simp [programRun, h, he]

/-- Witness for C8's amended theorem: a failing sink truncates the output
and exits 1; an ample sink on a raise-free document exits 0. -/
theorem write_failure_aborts_and_exit_codes_witness :
    (2 < (renderScript emptyDoc).1.length
      ∧ programRun emptyDoc 2 = ((renderScript emptyDoc).1.take 2, 1))
    ∧ ((renderScript emptyDoc).1.length ≤ 1000
      ∧ (renderScript emptyDoc).2 = none
      ∧ programRun emptyDoc 1000 = ((renderScript emptyDoc).1, 0)) :=
  ⟨⟨by decide, (write_failure_aborts_and_exit_codes emptyDoc 2).1 (by decide)⟩,
   ⟨by decide, rfl, (write_failure_aborts_and_exit_codes emptyDoc 1000).2.1 (by decide) rfl⟩⟩

/-- C9.  The third entry of the built-in `current_files`
(`mas-settings-form-handler.js`) has no `'approach'` key, so the unguarded
access `details['approach']` raises `KeyError` there: the run writes that
entry's filename line but aborts before the fourth entry, and the whole
script run ends in the `KeyError` — rendering of the built-in document does
not terminate normally. -/
theorem builtin_current_files_raises_keyerror :
    (renderCurrentFiles builtinCurrentFiles).2 = some keyErrApproach
    ∧ "\nmas-settings-form-handler.js:" ∈ (renderCurrentFiles builtinCurrentFiles).1
    ∧ "\nadmin-settings-page.js:" ∉ (renderCurrentFiles builtinCurrentFiles).1
    ∧ builtinCurrentFiles.map (fun f => (List.lookup "approach" f.2).isSome)
        = [true, true, false, false]
    ∧ (renderScript builtinScriptDoc).2 = some keyErrApproach :=
  ⟨rfl, by decide, by decide, by decide, rfl⟩

/-- C10.  A component whose value is neither a dictionary containing
`'features'` nor a list is skipped silently by the plan loop: no lines, no
exception, and the surrounding phases and the remaining components render
exactly as if it were absent. -/
theorem unrecognized_component_skipped (v : PyVal) (hv : skipsComponent v = true)
    (c ph : String) (xs ys : List (String × PyVal))
    (rest : List (String × List (String × PyVal))) :
    renderComponent c v = ([], none)
    ∧ renderPlan ((ph, xs ++ (c, v) :: ys) :: rest) = renderPlan ((ph, xs ++ ys) :: rest) := by
  refine ⟨renderComponent_skipped c v hv, ?_⟩
  simp [renderPlan, renderSectionsT, phaseT, renderPhase, sectionsT_skip c v hv]

/-- Witness for C10 at a concrete skipped component. -/
theorem unrecognized_component_skipped_witness :
    skipsComponent (PyVal.vint 7) = true
    ∧ renderComponent "x" (PyVal.vint 7) = ([], none)
    ∧ renderPlan [("p", [("x", PyVal.vint 7), ("ok", PyVal.vlist ["z"])])]
        = renderPlan [("p", [("ok", PyVal.vlist ["z"])])] := by
  have h := unrecognized_component_skipped (PyVal.vint 7) (by decide) "x" "p" []
    [("ok", PyVal.vlist ["z"])] []
  exact ⟨by decide, h.1, h.2⟩

end MASE
